import Mathlib

/-!
Verification development for the aerrand delivery-platform backend.

The definitions below are a shallow embedding of the delivery state machine
(src/controllers/deliveryController.js, src/models/Delivery.js), the driver
registration state machine (src/controllers/driverRegistrationController.js)
and the one-time-code endpoints of the same controller.  MongoDB's
`findOneAndUpdate` is modelled as an update of the first list element
matching the query predicate; a collection is a list of records.
-/

namespace Aerrand

/-! ## Delivery data model (src/models/Delivery.js) -/

/-- Delivery `status` enum, models/Delivery.js lines 79-83. -/
inductive DStatus
  | upcoming
  | pending
  | accepted
  | inTransit
  | completed
  | cancelled
deriving DecidableEq, Repr

/-- A delivery document.  `driverId = none` models a `null` or absent driver id
(the schema's setter normalises empty/undefined to `null`). -/
structure Delivery where
  id : Nat
  senderId : Nat
  driverId : Option Nat
  price : Int
  createdAt : Nat
  status : DStatus
  acceptedAt : Option Nat
  startedAt : Option Nat
  completedAt : Option Nat
deriving DecidableEq, Repr

/-- The deliveries collection. -/
abbrev DeliveryDb := List Delivery

/-- Mongo `findOneAndUpdate(query, update, \x7bnew: true\x7d)`: update the first
document matching `p` by `u` and return it; if none matches, return `none` and
leave the collection unchanged. -/
def findOneAndUpdate (p : Delivery → Bool) (u : Delivery → Delivery) :
    DeliveryDb → Option Delivery × DeliveryDb
  | [] => (none, [])
  | d :: ds =>
    if p d then (some (u d), u d :: ds)
    else ((findOneAndUpdate p u ds).1, d :: (findOneAndUpdate p u ds).2)

/-- A delivery is active for driver `drv` when it carries their id and its
status is `accepted` or `in-transit` (deliveryController.js lines 645-648). -/
def isActiveFor (drv : Nat) (d : Delivery) : Bool :=
  decide (d.driverId = some drv) &&
    (decide (d.status = DStatus.accepted) || decide (d.status = DStatus.inTransit))

/-- `Delivery.findOne(\x7bdriverId, status: \x7b$in: ['accepted','in-transit']\x7d\x7d)`
used as the active-delivery pre-check in `acceptDelivery`. -/
def hasActiveDelivery (db : DeliveryDb) (drv : Nat) : Bool :=
  db.any (isActiveFor drv)

/-- The query of the conditional update in `acceptDelivery`
(deliveryController.js lines 658-665): given id, status `upcoming`, driver id
null or absent. -/
def isClaimable (did : Nat) (d : Delivery) : Bool :=
  decide (d.id = did) && decide (d.status = DStatus.upcoming) && decide (d.driverId = none)

/-- The update applied by `acceptDelivery` (lines 666-670). -/
def claimUpdate (drv now : Nat) (d : Delivery) : Delivery :=
  { d with driverId := some drv, status := DStatus.accepted, acceptedAt := some now }

/-- The query of `startDelivery` (lines 730-734): given id, owned by the
caller, status `accepted`. -/
def startMatch (drv did : Nat) (d : Delivery) : Bool :=
  decide (d.id = did) && decide (d.driverId = some drv) && decide (d.status = DStatus.accepted)

/-- The update applied by `startDelivery` (lines 735-738). -/
def startUpdate (now : Nat) (d : Delivery) : Delivery :=
  { d with status := DStatus.inTransit, startedAt := some now }

/-- The query of `completeDelivery` (lines 790-794): given id, owned by the
caller, status `in-transit`. -/
def completeMatch (drv did : Nat) (d : Delivery) : Bool :=
  decide (d.id = did) && decide (d.driverId = some drv) && decide (d.status = DStatus.inTransit)

/-- The update applied by `completeDelivery` (lines 795-798). -/
def completeUpdate (now : Nat) (d : Delivery) : Delivery :=
  { d with status := DStatus.completed, completedAt := some now }

/-- Notification events emitted by the delivery handlers through
`NotificationService` (src/services/NotificationService.js). -/
inductive DeliveryEvent
  | deliveryAccepted (driverId deliveryId : Nat)
  | deliveryStarted (driverId deliveryId : Nat)
  | deliveryCompleted (driverId deliveryId : Nat) (earning : Int)
  | paymentSuccess (driverId : Nat) (amount : Int)
deriving DecidableEq, Repr

/-- Outcome of `acceptDelivery`. -/
inductive ClaimResult
  | accepted (d : Delivery)
  | conflictActive
  | notAvailable
deriving DecidableEq, Repr

/-- Outcome of `startDelivery` / `completeDelivery`. -/
inductive StepResult
  | ok (d : Delivery)
  | invalidTransition
deriving DecidableEq, Repr

/-- `acceptDelivery` (deliveryController.js lines 627-703): pre-check for an
existing active delivery of the caller (400, "You already have an active
delivery"), then the atomic conditional update; on no match 400 "Delivery not
available or already accepted"; on success emit `delivery_accepted`. -/
def acceptDelivery (drv did now : Nat) (db : DeliveryDb) :
    ClaimResult × DeliveryDb × List DeliveryEvent :=
  if hasActiveDelivery db drv then
    (ClaimResult.conflictActive, db, [])
  else
    match findOneAndUpdate (isClaimable did) (claimUpdate drv now) db with
    | (some d, db') => (ClaimResult.accepted d, db', [DeliveryEvent.deliveryAccepted drv did])
    | (none, db') => (ClaimResult.notAvailable, db', [])

/-- `startDelivery` (deliveryController.js lines 705-771): atomic conditional
update `accepted` → `in-transit`, setting `startedAt`; emits
`delivery_started` on success; 400 "Delivery not found or cannot be started"
otherwise. -/
def startDelivery (drv did now : Nat) (db : DeliveryDb) :
    StepResult × DeliveryDb × List DeliveryEvent :=
  match findOneAndUpdate (startMatch drv did) (startUpdate now) db with
  | (some d, db') => (StepResult.ok d, db', [DeliveryEvent.deliveryStarted drv did])
  | (none, db') => (StepResult.invalidTransition, db', [])

/-- The earning computed at completion (deliveryController.js line 811):
`delivery.price || delivery.estimatedEarning || 0`.  The schema has no
`estimatedEarning` field, so a zero (falsy) price falls through to `0`. -/
def completionEarning (d : Delivery) : Int :=
  if d.price = 0 then 0 else d.price

/-- `completeDelivery` (deliveryController.js lines 773-835): atomic
conditional update `in-transit` → `completed`, setting `completedAt`; emits
`delivery_completed` with the computed earning and, when the earning is
positive, `payment_success` with that amount. -/
def completeDelivery (drv did now : Nat) (db : DeliveryDb) :
    StepResult × DeliveryDb × List DeliveryEvent :=
  match findOneAndUpdate (completeMatch drv did) (completeUpdate now) db with
  | (some d, db') =>
      (StepResult.ok d, db',
        DeliveryEvent.deliveryCompleted drv did (completionEarning d) ::
          (if 0 < completionEarning d then
            [DeliveryEvent.paymentSuccess drv (completionEarning d)] else []))
  | (none, db') => (StepResult.invalidTransition, db', [])

/-- Insert a delivery into a list kept in descending `createdAt` order. -/
def insertByCreatedDesc (d : Delivery) : DeliveryDb → DeliveryDb
  | [] => [d]
  | e :: es =>
    if e.createdAt ≤ d.createdAt then d :: e :: es else e :: insertByCreatedDesc d es

/-- `.sort(\x7bcreatedAt: -1\x7d)`: newest-first ordering. -/
def sortByCreatedDesc : DeliveryDb → DeliveryDb
  | [] => []
  | d :: ds => insertByCreatedDesc d (sortByCreatedDesc ds)

/-- The query whose result `getAvailableDeliveries` returns to the client
(deliveryController.js lines 533-541).  In the source the `status: 'upcoming'`
clause of this query is commented out (line 534), so only the unset-driver
condition is applied. -/
def getAvailableDeliveries (db : DeliveryDb) : DeliveryDb :=
  sortByCreatedDesc (db.filter (fun d => decide (d.driverId = none)))

/-- `Delivery.findAvailable` (models/Delivery.js lines 165-173): status
`upcoming` and driver id null or absent, newest-first. -/
def findAvailable (db : DeliveryDb) : DeliveryDb :=
  sortByCreatedDesc
    (db.filter (fun d => decide (d.status = DStatus.upcoming) && decide (d.driverId = none)))

/-! ## Structural lemmas about `findOneAndUpdate` -/

theorem findOneAndUpdate_of_all_false {p : Delivery → Bool} {u : Delivery → Delivery}
    {db : DeliveryDb} (h : ∀ x ∈ db, p x = false) :
    findOneAndUpdate p u db = (none, db) := by
  induction db with
  | nil => rfl
  | cons d ds ih =>
    have hd : p d = false := h d (List.mem_cons_self d ds)
    have hds : ∀ x ∈ ds, p x = false := fun x hx => h x (List.mem_cons_of_mem d hx)
    simp [findOneAndUpdate, hd, ih hds]

theorem findOneAndUpdate_first {p : Delivery → Bool} {u : Delivery → Delivery}
    (l1 l2 : DeliveryDb) (d : Delivery)
    (h1 : ∀ x ∈ l1, p x = false) (hd : p d = true) :
    findOneAndUpdate p u (l1 ++ d :: l2) = (some (u d), l1 ++ u d :: l2) := by
  induction l1 with
  | nil => simp [findOneAndUpdate, hd]
  | cons a l1 ih =>
    have ha : p a = false := h1 a (List.mem_cons_self a l1)
    have h1' : ∀ x ∈ l1, p x = false := fun x hx => h1 x (List.mem_cons_of_mem a hx)
    simp [findOneAndUpdate, ha, ih h1']

theorem findOneAndUpdate_cases (p : Delivery → Bool) (u : Delivery → Delivery)
    (db : DeliveryDb) :
    findOneAndUpdate p u db = (none, db) ∨
      ∃ l1 d l2, db = l1 ++ d :: l2 ∧ p d = true ∧ (∀ x ∈ l1, p x = false) ∧
        findOneAndUpdate p u db = (some (u d), l1 ++ u d :: l2) := by
  induction db with
  | nil => exact Or.inl rfl
  | cons d ds ih =>
    by_cases hd : p d = true
    · exact Or.inr ⟨[], d, ds, by simp, hd, by simp, by simp [findOneAndUpdate, hd]⟩
    · have hd' : p d = false := by
        cases hpd : p d with
        | true => exact absurd hpd hd
        | false => rfl
      rcases ih with hnone | ⟨l1, e, l2, hds, hpe, hl1, heq⟩
      · exact Or.inl (by simp [findOneAndUpdate, hd', hnone])
      · refine Or.inr ⟨d :: l1, e, l2, by simp [hds], hpe, ?_, ?_⟩
        · intro x hx
          rcases List.mem_cons.mp hx with rfl | hx
          · exact hd'
          · exact hl1 x hx
        · simp [findOneAndUpdate, hd', heq]

/-! ## Unfolding lemmas for the Boolean predicates -/

theorem isClaimable_eq_true {did : Nat} {d : Delivery} :
    isClaimable did d = true ↔
      d.id = did ∧ d.status = DStatus.upcoming ∧ d.driverId = none := by
  simp [isClaimable, and_assoc]

theorem id_ne_of_nodup {l1 l2 : DeliveryDb} {d : Delivery}
    (h : ((l1 ++ d :: l2).map Delivery.id).Nodup) :
    ∀ x, x ∈ l1 ∨ x ∈ l2 → x.id ≠ d.id := by
  have h1 : (l1.map Delivery.id ++ d.id :: l2.map Delivery.id).Nodup := by simpa using h
  have h2 := List.nodup_middle.mp h1
  have h3 : d.id ∉ l1.map Delivery.id ++ l2.map Delivery.id := (List.nodup_cons.mp h2).1
  intro x hx hEq
  apply h3
  rcases hx with hx | hx
  · exact List.mem_append.mpr (Or.inl (hEq ▸ List.mem_map_of_mem Delivery.id hx))
  · exact List.mem_append.mpr (Or.inr (hEq ▸ List.mem_map_of_mem Delivery.id hx))

/-! ## C1: ClaimDelivery is a single conditional update -/

/-- C1: if the delivery with the given id has status `upcoming` and an unset
driver id, `acceptDelivery` (reaching the conditional update, i.e. with the
caller holding no active delivery) succeeds, setting the driver id to the
caller, status to `accepted` and `acceptedAt`, touching no other delivery, and
emitting `delivery_accepted`; if no delivery matches the claimable predicate
the call fails with NotAvailable and the collection is unchanged.
Consequently, after a successful claim, no later claim attempt on the same
delivery id can succeed. -/
theorem acceptDelivery_atomic_claim
    (l1 l2 : DeliveryDb) (d : Delivery) (drv did now : Nat)
    (hids : ((l1 ++ d :: l2).map Delivery.id).Nodup)
    (hact : hasActiveDelivery (l1 ++ d :: l2) drv = false) :
    (isClaimable did d = true →
      acceptDelivery drv did now (l1 ++ d :: l2) =
        (ClaimResult.accepted (claimUpdate drv now d), l1 ++ claimUpdate drv now d :: l2,
          [DeliveryEvent.deliveryAccepted drv did]) ∧
      ∀ drv2 now2 r,
        (acceptDelivery drv2 did now2 (l1 ++ claimUpdate drv now d :: l2)).1 ≠
          ClaimResult.accepted r) ∧
    ((∀ x ∈ l1 ++ d :: l2, isClaimable did x = false) →
      acceptDelivery drv did now (l1 ++ d :: l2) =
        (ClaimResult.notAvailable, l1 ++ d :: l2, [])) := by
  constructor
  · intro hclaim
    have hdid : d.id = did := (isClaimable_eq_true.mp hclaim).1
    have hne := id_ne_of_nodup hids
    have hl1 : ∀ x ∈ l1, isClaimable did x = false := by
      intro x hx
      have : x.id ≠ did := fun hxe => hne x (Or.inl hx) (hxe.trans hdid.symm)
      simp [isClaimable, this]
    constructor
    · simp [acceptDelivery, hact, findOneAndUpdate_first l1 l2 d hl1 hclaim]
    · intro drv2 now2 r
      by_cases hact2 :
          hasActiveDelivery (l1 ++ claimUpdate drv now d :: l2) drv2 = true
      · simp [acceptDelivery, hact2]
      · have hact2' :
            hasActiveDelivery (l1 ++ claimUpdate drv now d :: l2) drv2 = false := by
          cases hh : hasActiveDelivery (l1 ++ claimUpdate drv now d :: l2) drv2
          · rfl
          · exact absurd hh hact2
        have hall : ∀ x ∈ l1 ++ claimUpdate drv now d :: l2, isClaimable did x = false := by
          intro x hx
          rcases List.mem_append.mp hx with hx | hx
          · exact hl1 x hx
          · rcases List.mem_cons.mp hx with rfl | hx
            · simp [isClaimable, claimUpdate]
            · have : x.id ≠ did := fun hxe => hne x (Or.inr hx) (hxe.trans hdid.symm)
              simp [isClaimable, this]
        simp [acceptDelivery, hact2', findOneAndUpdate_of_all_false hall]
  · intro hall
    simp [acceptDelivery, hact, findOneAndUpdate_of_all_false hall]

/-- A claimable upcoming delivery used as a concrete input. -/
def wDelivery : Delivery :=
  { id := 1, senderId := 2, driverId := none, price := 25, createdAt := 10,
    status := DStatus.upcoming, acceptedAt := none, startedAt := none, completedAt := none }

theorem acceptDelivery_atomic_claim_witness :
    (([wDelivery].map Delivery.id).Nodup ∧ hasActiveDelivery [wDelivery] 7 = false ∧
      isClaimable 1 wDelivery = true) ∧
    acceptDelivery 7 1 99 [wDelivery] =
      (ClaimResult.accepted (claimUpdate 7 99 wDelivery), [claimUpdate 7 99 wDelivery],
        [DeliveryEvent.deliveryAccepted 7 1]) :=
  ⟨⟨by decide, by decide, by decide⟩,
    ((acceptDelivery_atomic_claim [] [] wDelivery 7 1 99 (by decide) (by decide)).1
      (by decide)).1⟩

/-! ## C2: single-active-delivery invariant -/

/-- Number of deliveries active for a driver. -/
def activeCount (db : DeliveryDb) (drv : Nat) : Nat :=
  (db.filter (isActiveFor drv)).length

/-- The single-active-delivery invariant: every driver holds at most one
delivery with status in \x7baccepted, in-transit\x7d. -/
def SingleActive (db : DeliveryDb) : Prop :=
  ∀ drv, activeCount db drv ≤ 1

/-- The delivery transitions a driver can invoke. -/
inductive DeliveryOp
  | claim (drv did now : Nat)
  | start (drv did now : Nat)
  | complete (drv did now : Nat)
deriving DecidableEq, Repr

def applyDeliveryOp : DeliveryOp → DeliveryDb → DeliveryDb
  | DeliveryOp.claim drv did now, db => (acceptDelivery drv did now db).2.1
  | DeliveryOp.start drv did now, db => (startDelivery drv did now db).2.1
  | DeliveryOp.complete drv did now, db => (completeDelivery drv did now db).2.1

def applyDeliveryOps (ops : List DeliveryOp) (db : DeliveryDb) : DeliveryDb :=
  ops.foldl (fun s op => applyDeliveryOp op s) db

theorem activeCount_append (l1 l2 : DeliveryDb) (x : Nat) :
    activeCount (l1 ++ l2) x = activeCount l1 x + activeCount l2 x := by
  simp [activeCount, List.filter_append]

theorem activeCount_cons_pos {x : Nat} {d : Delivery} (l : DeliveryDb)
    (h : isActiveFor x d = true) : activeCount (d :: l) x = activeCount l x + 1 := by
  simp [activeCount, List.filter_cons, h]

theorem activeCount_cons_neg {x : Nat} {d : Delivery} (l : DeliveryDb)
    (h : isActiveFor x d = false) : activeCount (d :: l) x = activeCount l x := by
  simp [activeCount, List.filter_cons, h]

theorem activeCount_eq_zero {db : DeliveryDb} {drv : Nat}
    (h : hasActiveDelivery db drv = false) : activeCount db drv = 0 := by
  have h' : ∀ x ∈ db, ¬ isActiveFor drv x = true := by
    intro x hx hax
    have hany : db.any (isActiveFor drv) = true := List.any_eq_true.mpr ⟨x, hx, hax⟩
    rw [hasActiveDelivery] at h
    rw [hany] at h
    cases h
  have hnil : db.filter (isActiveFor drv) = [] := List.filter_eq_nil_iff.mpr h'
  simp [activeCount, hnil]

/-- Preservation of the invariant by a conditional update whose mutation never
makes a delivery active for a driver it was not already active for. -/
theorem singleActive_findOneAndUpdate (p : Delivery → Bool) (u : Delivery → Delivery)
    (db : DeliveryDb) (h : SingleActive db)
    (hpres : ∀ d x, p d = true → isActiveFor x (u d) = true → isActiveFor x d = true) :
    SingleActive (findOneAndUpdate p u db).2 := by
  rcases findOneAndUpdate_cases p u db with hnone | ⟨l1, d, l2, hdb, hpd, _, heq⟩
  · rw [hnone]; exact h
  · subst hdb
    rw [heq]
    intro x
    have hcnt := h x
    rw [activeCount_append] at hcnt
    rw [activeCount_append]
    cases hu : isActiveFor x (u d) with
    | true =>
      have hd : isActiveFor x d = true := hpres d x hpd hu
      rw [activeCount_cons_pos _ hu]
      rw [activeCount_cons_pos _ hd] at hcnt
      omega
    | false =>
      rw [activeCount_cons_neg _ hu]
      cases hd : isActiveFor x d with
      | true =>
        rw [activeCount_cons_pos _ hd] at hcnt
        omega
      | false =>
        rw [activeCount_cons_neg _ hd] at hcnt
        omega

theorem singleActive_claim (drv did now : Nat) (db : DeliveryDb) (h : SingleActive db) :
    SingleActive (acceptDelivery drv did now db).2.1 := by
  by_cases hact : hasActiveDelivery db drv = true
  · simpa [acceptDelivery, hact] using h
  · have hact' : hasActiveDelivery db drv = false := by
      cases hh : hasActiveDelivery db drv
      · rfl
      · exact absurd hh hact
    rcases findOneAndUpdate_cases (isClaimable did) (claimUpdate drv now) db with
      hnone | ⟨l1, d, l2, hdb, hpd, _, heq⟩
    · simpa [acceptDelivery, hact', hnone] using h
    · subst hdb
      have hdb' : (acceptDelivery drv did now (l1 ++ d :: l2)).2.1 =
          l1 ++ claimUpdate drv now d :: l2 := by
        simp [acceptDelivery, hact', heq]
      rw [hdb']
      intro x
      have hdnone : d.driverId = none := (isClaimable_eq_true.mp hpd).2.2
      have hdact : isActiveFor x d = false := by simp [isActiveFor, hdnone]
      have hcnt := h x
      rw [activeCount_append, activeCount_cons_neg _ hdact] at hcnt
      rw [activeCount_append]
      by_cases hx : x = drv
      · subst hx
        have hzero := activeCount_eq_zero hact'
        rw [activeCount_append, activeCount_cons_neg _ hdact] at hzero
        have h1 : isActiveFor x (claimUpdate x now d) = true := by
          simp [isActiveFor, claimUpdate]
        rw [activeCount_cons_pos _ h1]
        omega
      · have hne : (some drv : Option Nat) ≠ some x := by
          intro hEq
          injection hEq with hEq2
          exact hx hEq2.symm
        have h0 : isActiveFor x (claimUpdate drv now d) = false := by
          simp [isActiveFor, claimUpdate, hne]
        rw [activeCount_cons_neg _ h0]
        omega

theorem startDelivery_db_eq (drv did now : Nat) (db : DeliveryDb) :
    (startDelivery drv did now db).2.1 =
      (findOneAndUpdate (startMatch drv did) (startUpdate now) db).2 := by
  rcases hfoau : findOneAndUpdate (startMatch drv did) (startUpdate now) db with ⟨r, db'⟩
  cases r <;> simp [startDelivery, hfoau]

theorem completeDelivery_db_eq (drv did now : Nat) (db : DeliveryDb) :
    (completeDelivery drv did now db).2.1 =
      (findOneAndUpdate (completeMatch drv did) (completeUpdate now) db).2 := by
  rcases hfoau : findOneAndUpdate (completeMatch drv did) (completeUpdate now) db with ⟨r, db'⟩
  cases r <;> simp [completeDelivery, hfoau]

theorem singleActive_start (drv did now : Nat) (db : DeliveryDb) (h : SingleActive db) :
    SingleActive (startDelivery drv did now db).2.1 := by
  rw [startDelivery_db_eq]
  refine singleActive_findOneAndUpdate _ _ db h ?_
  intro d x hp hu
  rw [startMatch] at hp
  simp only [Bool.and_eq_true, decide_eq_true_eq] at hp
  obtain ⟨⟨-, hown⟩, hst⟩ := hp
  simp [isActiveFor, startUpdate, hown] at hu
  simp [isActiveFor, hown, hst, hu]

theorem singleActive_complete (drv did now : Nat) (db : DeliveryDb) (h : SingleActive db) :
    SingleActive (completeDelivery drv did now db).2.1 := by
  rw [completeDelivery_db_eq]
  refine singleActive_findOneAndUpdate _ _ db h ?_
  intro d x hp hu
  simp [isActiveFor, completeUpdate] at hu

theorem singleActive_ops (ops : List DeliveryOp) :
    ∀ db, SingleActive db → SingleActive (applyDeliveryOps ops db) := by
  induction ops with
  | nil => intro db h; simpa [applyDeliveryOps] using h
  | cons op ops ih =>
    intro db h
    have h1 : SingleActive (applyDeliveryOp op db) := by
      cases op with
      | claim drv did now => exact singleActive_claim drv did now db h
      | start drv did now => exact singleActive_start drv did now db h
      | complete drv did now => exact singleActive_complete drv did now db h
    simpa [applyDeliveryOps, List.foldl_cons] using ih _ h1

/-- C2: starting from a state satisfying the single-active-delivery invariant,
any sequence of ClaimDelivery/StartDelivery/CompleteDelivery operations keeps
every driver on at most one delivery with status in \x7baccepted, in-transit\x7d;
moreover a ClaimDelivery by a driver already holding such a delivery fails
with Conflict and changes nothing. -/
theorem singleActiveDelivery_invariant (ops : List DeliveryOp) (db : DeliveryDb)
    (h : SingleActive db) :
    SingleActive (applyDeliveryOps ops db) ∧
    ∀ drv did now, hasActiveDelivery db drv = true →
      acceptDelivery drv did now db = (ClaimResult.conflictActive, db, []) := by
  refine ⟨singleActive_ops ops db h, ?_⟩
  intro drv did now hact
  simp [acceptDelivery, hact]

theorem wdb_singleActive : SingleActive [wDelivery] := by
  intro drv
  simp [activeCount, List.filter_cons, isActiveFor, wDelivery]

theorem singleActiveDelivery_invariant_witness :
    SingleActive [wDelivery] ∧
    (SingleActive (applyDeliveryOps [DeliveryOp.claim 7 1 99] [wDelivery]) ∧
      ∀ drv did now, hasActiveDelivery [wDelivery] drv = true →
        acceptDelivery drv did now [wDelivery] =
          (ClaimResult.conflictActive, [wDelivery], [])) :=
  ⟨wdb_singleActive,
    singleActiveDelivery_invariant [DeliveryOp.claim 7 1 99] [wDelivery] wdb_singleActive⟩

/-! ## C5: the available-deliveries listing -/

/-- A cancelled delivery whose driver id is unset. -/
def cancelledUnclaimed : Delivery :=
  { id := 3, senderId := 2, driverId := none, price := 10, createdAt := 30,
    status := DStatus.cancelled, acceptedAt := none, startedAt := none, completedAt := none }

/-- C5 (evaluation at the failing input): `getAvailableDeliveries` returns a
cancelled delivery with unset driver id, because the `status: 'upcoming'`
clause of the returned query is commented out in the source
(deliveryController.js line 534), while the model's own
`Delivery.findAvailable` excludes it. -/
theorem getAvailableDeliveries_ignores_status :
    getAvailableDeliveries [cancelledUnclaimed] = [cancelledUnclaimed] ∧
    cancelledUnclaimed.status ≠ DStatus.upcoming ∧
    cancelledUnclaimed.driverId = none ∧
    findAvailable [cancelledUnclaimed] = [] := by decide

/-! ## C6: StartDelivery retry -/

/-- C6: a first `startDelivery` call on a delivery in status `accepted` owned
by the caller succeeds, setting status `in-transit` and `startedAt` and
leaving everything else unchanged; the immediate retry fails with
InvalidTransition and leaves the collection (status and timestamps included)
exactly as the first call left it. -/
theorem startDelivery_retry_fails
    (l1 l2 : DeliveryDb) (d : Delivery) (drv did t1 t2 : Nat)
    (hid : d.id = did) (hown : d.driverId = some drv)
    (hstat : d.status = DStatus.accepted)
    (hids : ((l1 ++ d :: l2).map Delivery.id).Nodup) :
    startDelivery drv did t1 (l1 ++ d :: l2) =
      (StepResult.ok (startUpdate t1 d), l1 ++ startUpdate t1 d :: l2,
        [DeliveryEvent.deliveryStarted drv did]) ∧
    startDelivery drv did t2 (l1 ++ startUpdate t1 d :: l2) =
      (StepResult.invalidTransition, l1 ++ startUpdate t1 d :: l2, []) := by
  have hne := id_ne_of_nodup hids
  have hl1 : ∀ x ∈ l1, startMatch drv did x = false := by
    intro x hx
    have hxid : x.id ≠ did := fun hxe => hne x (Or.inl hx) (hxe.trans hid.symm)
    simp [startMatch, hxid]
  have hd : startMatch drv did d = true := by simp [startMatch, hid, hown, hstat]
  constructor
  · simp [startDelivery, findOneAndUpdate_first l1 l2 d hl1 hd]
  · have hall : ∀ x ∈ l1 ++ startUpdate t1 d :: l2, startMatch drv did x = false := by
      intro x hx
      rcases List.mem_append.mp hx with hx | hx
      · exact hl1 x hx
      · rcases List.mem_cons.mp hx with rfl | hx
        · simp [startMatch, startUpdate]
        · have hxid : x.id ≠ did := fun hxe => hne x (Or.inr hx) (hxe.trans hid.symm)
          simp [startMatch, hxid]
    simp [startDelivery, findOneAndUpdate_of_all_false hall]

/-- An accepted delivery owned by driver 7, used as a concrete input. -/
def wAccepted : Delivery :=
  { id := 1, senderId := 2, driverId := some 7, price := 25, createdAt := 10,
    status := DStatus.accepted, acceptedAt := some 99, startedAt := none, completedAt := none }

theorem startDelivery_retry_fails_witness :
    (wAccepted.id = 1 ∧ wAccepted.driverId = some 7 ∧
      wAccepted.status = DStatus.accepted ∧ ([wAccepted].map Delivery.id).Nodup) ∧
    (startDelivery 7 1 100 [wAccepted] =
        (StepResult.ok (startUpdate 100 wAccepted), [startUpdate 100 wAccepted],
          [DeliveryEvent.deliveryStarted 7 1]) ∧
      startDelivery 7 1 101 [startUpdate 100 wAccepted] =
        (StepResult.invalidTransition, [startUpdate 100 wAccepted], [])) :=
  ⟨⟨rfl, rfl, rfl, by decide⟩,
    startDelivery_retry_fails [] [] wAccepted 7 1 100 101 rfl rfl rfl (by decide)⟩

/-! ## C7: CompleteDelivery -/

theorem completionEarning_pos_iff (d : Delivery) :
    0 < completionEarning d ↔ 0 < d.price := by
  rw [completionEarning]
  by_cases h : d.price = 0
  · simp [h]
  · simp [h]

theorem completionEarning_of_ne_zero (d : Delivery) (h : d.price ≠ 0) :
    completionEarning d = d.price := by
  simp [completionEarning, h]

/-- C7: `completeDelivery` succeeds exactly when the delivery with the given
id is in status `in-transit` and owned by the caller; on success it sets
status `completed` and `completedAt` and emits `delivery_completed`; a
`payment_success` event for the caller is emitted exactly when the delivery's
price is positive, and its amount is that price. -/
theorem completeDelivery_spec
    (l1 l2 : DeliveryDb) (d : Delivery) (drv did now : Nat)
    (hid : d.id = did)
    (hids : ((l1 ++ d :: l2).map Delivery.id).Nodup) :
    ((∃ r, (completeDelivery drv did now (l1 ++ d :: l2)).1 = StepResult.ok r) ↔
      (d.driverId = some drv ∧ d.status = DStatus.inTransit)) ∧
    (d.driverId = some drv → d.status = DStatus.inTransit →
      completeDelivery drv did now (l1 ++ d :: l2) =
        (StepResult.ok (completeUpdate now d), l1 ++ completeUpdate now d :: l2,
          DeliveryEvent.deliveryCompleted drv did (completionEarning d) ::
            (if 0 < completionEarning d then
              [DeliveryEvent.paymentSuccess drv (completionEarning d)] else []))) ∧
    (∀ a, DeliveryEvent.paymentSuccess drv a ∈
        (completeDelivery drv did now (l1 ++ d :: l2)).2.2 ↔
      (a = d.price ∧ 0 < d.price ∧ d.driverId = some drv ∧
        d.status = DStatus.inTransit)) := by
  have hne := id_ne_of_nodup hids
  have hl1 : ∀ x ∈ l1, completeMatch drv did x = false := by
    intro x hx
    have hxid : x.id ≠ did := fun hxe => hne x (Or.inl hx) (hxe.trans hid.symm)
    simp [completeMatch, hxid]
  by_cases hmatch : d.driverId = some drv ∧ d.status = DStatus.inTransit
  · obtain ⟨h1, h2⟩ := hmatch
    have hd : completeMatch drv did d = true := by simp [completeMatch, hid, h1, h2]
    have hrun : completeDelivery drv did now (l1 ++ d :: l2) =
        (StepResult.ok (completeUpdate now d), l1 ++ completeUpdate now d :: l2,
          DeliveryEvent.deliveryCompleted drv did (completionEarning d) ::
            (if 0 < completionEarning d then
              [DeliveryEvent.paymentSuccess drv (completionEarning d)] else [])) := by
      simp [completeDelivery, findOneAndUpdate_first l1 l2 d hl1 hd]
      exact ⟨rfl, rfl⟩
    refine ⟨?_, fun _ _ => hrun, ?_⟩
    · constructor
      · intro _
        exact ⟨h1, h2⟩
      · intro _
        exact ⟨completeUpdate now d, by rw [hrun]⟩
    · intro a
      have hev : (completeDelivery drv did now (l1 ++ d :: l2)).2.2 =
          DeliveryEvent.deliveryCompleted drv did (completionEarning d) ::
            (if 0 < completionEarning d then
              [DeliveryEvent.paymentSuccess drv (completionEarning d)] else []) := by
        rw [hrun]
      rw [hev]
      by_cases hp : (0 : Int) < d.price
      · have hne0 : d.price ≠ 0 := by omega
        have hce : completionEarning d = d.price := completionEarning_of_ne_zero d hne0
        rw [if_pos (by rw [hce]; exact hp)]
        simp [hce, hp, h1, h2]
      · have hnp : ¬ 0 < completionEarning d := by
          rw [completionEarning_pos_iff]
          exact hp
        rw [if_neg hnp]
        simp [hp]
  · have hdm : completeMatch drv did d = false := by
      rw [completeMatch]
      by_cases h1 : d.driverId = some drv
      · have h2 : d.status ≠ DStatus.inTransit := fun h2 => hmatch ⟨h1, h2⟩
        simp [h1, h2]
      · simp [h1]
    have hall : ∀ x ∈ l1 ++ d :: l2, completeMatch drv did x = false := by
      intro x hx
      rcases List.mem_append.mp hx with hx | hx
      · exact hl1 x hx
      · rcases List.mem_cons.mp hx with rfl | hx
        · exact hdm
        · have hxid : x.id ≠ did := fun hxe => hne x (Or.inr hx) (hxe.trans hid.symm)
          simp [completeMatch, hxid]
    have hrun : completeDelivery drv did now (l1 ++ d :: l2) =
        (StepResult.invalidTransition, l1 ++ d :: l2, []) := by
      simp [completeDelivery, findOneAndUpdate_of_all_false hall]
    refine ⟨?_, fun h1 h2 => absurd ⟨h1, h2⟩ hmatch, ?_⟩
    · constructor
      · rintro ⟨r, hr⟩
        rw [hrun] at hr
        simp at hr
      · intro hx
        exact absurd hx hmatch
    · intro a
      have hev : (completeDelivery drv did now (l1 ++ d :: l2)).2.2 = [] := by
        rw [hrun]
      rw [hev]
      simp only [List.not_mem_nil, false_iff]
      rintro ⟨-, -, hx1, hx2⟩
      exact hmatch ⟨hx1, hx2⟩

/-- An in-transit delivery owned by driver 7, used as a concrete input. -/
def wTransit : Delivery :=
  { id := 4, senderId := 2, driverId := some 7, price := 25, createdAt := 10,
    status := DStatus.inTransit, acceptedAt := some 99, startedAt := some 100,
    completedAt := none }

theorem completeDelivery_spec_witness :
    (wTransit.id = 4 ∧ ([wTransit].map Delivery.id).Nodup) ∧
    (((∃ r, (completeDelivery 7 4 200 [wTransit]).1 = StepResult.ok r) ↔
        (wTransit.driverId = some 7 ∧ wTransit.status = DStatus.inTransit)) ∧
      (wTransit.driverId = some 7 → wTransit.status = DStatus.inTransit →
        completeDelivery 7 4 200 [wTransit] =
          (StepResult.ok (completeUpdate 200 wTransit), [completeUpdate 200 wTransit],
            DeliveryEvent.deliveryCompleted 7 4 (completionEarning wTransit) ::
              (if 0 < completionEarning wTransit then
                [DeliveryEvent.paymentSuccess 7 (completionEarning wTransit)] else []))) ∧
      (∀ a, DeliveryEvent.paymentSuccess 7 a ∈
          (completeDelivery 7 4 200 [wTransit]).2.2 ↔
        (a = wTransit.price ∧ 0 < wTransit.price ∧ wTransit.driverId = some 7 ∧
          wTransit.status = DStatus.inTransit))) :=
  ⟨⟨rfl, by decide⟩, completeDelivery_spec [] [] wTransit 7 4 200 rfl (by decide)⟩

/-! ## Registration state machine (src/controllers/driverRegistrationController.js) -/

/-- Registration steps, in the order of the controller's `stepOrder` array. -/
inductive RegStep
  | verifiedPhone
  | basicInfoCompleted
  | earnTypeCompleted
  | documentsUploading
  | completed
deriving DecidableEq, Repr, Fintype

/-- The `stepOrder` array of `getCurrentRegistrationStep`
(driverRegistrationController.js lines 191-197). -/
def stepOrder : List RegStep :=
  [RegStep.verifiedPhone, RegStep.basicInfoCompleted, RegStep.earnTypeCompleted,
    RegStep.documentsUploading, RegStep.completed]

/-- `stepOrder.indexOf`, with the source's `-1` for a missing value. -/
def stepIndexOf : Option RegStep → Int
  | none => -1
  | some s => (stepOrder.indexOf s : Int)

/-- Position of a step in the fixed order. -/
def stepIndex (s : RegStep) : Nat := stepOrder.indexOf s

/-- `getCurrentRegistrationStep(driver, tokenStep)`
(driverRegistrationController.js lines 189-205): the more advanced of the
stored step and the token's step claim; `verified_phone` when neither is
set. -/
def getCurrentRegistrationStep (driverStep tokenStep : Option RegStep) : RegStep :=
  let currentIndex := max (stepIndexOf driverStep) (stepIndexOf tokenStep)
  if 0 ≤ currentIndex then stepOrder.getD currentIndex.toNat RegStep.verifiedPhone
  else RegStep.verifiedPhone

/-- JS truthiness of an optional string field: `undefined`, `null` and `""`
are falsy. -/
def present : Option String → Bool
  | none => false
  | some s => decide (s ≠ "")

/-- The driver fields read and written by the registration handlers.  The
phone and password hash are not modelled; no claim depends on them. -/
structure RegDriver where
  name : Option String
  firstName : Option String
  lastName : Option String
  email : Option String
  earnType : Option String
  city : Option String
  referralCode : Option String
  documents : List String
  registrationStep : Option RegStep
  verified : Bool
  available : Bool
deriving DecidableEq, Repr

/-- Registration-relevant state for one driver: the driver record (absent
until `completeRegistration` creates it) and the step claim of the
continuation token currently in force (each operation's response token
replaces it). -/
structure RegState where
  driver : Option RegDriver
  tokenStep : Option RegStep
deriving DecidableEq, Repr

/-- The email check of `completeRegistration` (line 364): the regex
`[^\s@]+@[^\s@]+\.[^\s@]+` anchored at both ends matches iff the string has
no whitespace, exactly one `@` which is not the first character, and the part
after the `@` contains a `.` with at least one character on each side. -/
def emailRegexMatches (s : String) : Bool :=
  let cs := s.data
  cs.all (fun c => !c.isWhitespace) &&
    decide ((cs.filter (fun c => decide (c = '@'))).length = 1) &&
    decide (1 ≤ cs.indexOf '@') &&
    ((cs.drop (cs.indexOf '@' + 1)).drop 1).dropLast.contains '.'

/-- Notifications emitted by the registration handlers. -/
inductive RegEvent
  | profileUpdated
  | documentUploaded (docType : String)
  | registrationCompleted
  | verificationApproved
deriving DecidableEq, Repr

/-- Result of a registration operation. -/
structure RegOutcome where
  success : Bool
  events : List RegEvent
  state : RegState
deriving DecidableEq, Repr

def validEarnTypes : List String := ["car", "scooter", "bicycle", "truck"]

def validDocTypes : List String :=
  ["driversLicense", "profilePhoto", "socialInsuranceNumber", "vehicleRegistration",
    "vehicleInsurance"]

/-- `completeRegistration` (lines 352-486): validates the inputs, resolves or
creates the driver, sets the name parts and email, unconditionally sets
`registrationStep = 'basic_info_completed'` and issues a continuation token
carrying that step; emits `profile_updated`.  (Password hashing and the
duplicate-email check against other drivers are outside this single-driver
model.) -/
def completeRegistrationOp (firstName lastName email password : String)
    (s : RegState) : RegOutcome :=
  if firstName = "" ∨ lastName = "" ∨ email = "" ∨ password = "" then
    { success := false, events := [], state := s }
  else if emailRegexMatches email = false then
    { success := false, events := [], state := s }
  else if password.length < 6 then
    { success := false, events := [], state := s }
  else
    let name := firstName ++ " " ++ lastName
    match s.driver with
    | some d =>
        { success := true, events := [RegEvent.profileUpdated],
          state :=
            { driver := some { d with
                name := some name,
                firstName := some firstName,
                lastName := some lastName,
                email := some email,
                registrationStep := some RegStep.basicInfoCompleted },
              tokenStep := some RegStep.basicInfoCompleted } }
    | none =>
        { success := true, events := [RegEvent.profileUpdated],
          state :=
            { driver := some {
                name := some name,
                firstName := some firstName,
                lastName := some lastName,
                email := some email,
                earnType := none,
                city := none,
                referralCode := none,
                documents := [],
                registrationStep := some RegStep.basicInfoCompleted,
                verified := false,
                available := false },
              tokenStep := some RegStep.basicInfoCompleted } }

/-- `setupEarnType` (lines 573-673): validates the earn type against the
closed set, resolves the driver (404 when absent), sets earn type, city and
referral code, unconditionally sets `registrationStep = 'earn_type_completed'`
and issues a continuation token carrying that step; emits `profile_updated`. -/
def setupEarnTypeOp (earnType city referralCode : String) (s : RegState) : RegOutcome :=
  if earnType = "" ∨ city = "" then
    { success := false, events := [], state := s }
  else if validEarnTypes.contains earnType = false then
    { success := false, events := [], state := s }
  else
    match s.driver with
    | none => { success := false, events := [], state := s }
    | some d =>
        { success := true, events := [RegEvent.profileUpdated],
          state :=
            { driver := some { d with
                earnType := some earnType,
                city := some city,
                referralCode := if referralCode = "" then none else some referralCode,
                registrationStep := some RegStep.earnTypeCompleted },
              tokenStep := some RegStep.earnTypeCompleted } }

/-- `uploadDocument` (lines 676-882), successful-upload path: validates the
document type, resolves the driver, replaces the stored record under that
key, advances the stored step to `documents_uploading` only when the current
effective step precedes it (lines 810-813), and issues a continuation token
carrying step `documents_uploading`.  The handler's only
`notifyDocumentUploaded` call sits inside its `catch` error handler (lines
866-870), so the success path emits no event. -/
def uploadDocumentOp (docType : String) (s : RegState) : RegOutcome :=
  if validDocTypes.contains docType = false then
    { success := false, events := [], state := s }
  else
    match s.driver with
    | none => { success := false, events := [], state := s }
    | some d =>
        let cur := getCurrentRegistrationStep d.registrationStep s.tokenStep
        let newStep :=
          if cur = RegStep.verifiedPhone ∨ cur = RegStep.basicInfoCompleted ∨
              cur = RegStep.earnTypeCompleted then
            some RegStep.documentsUploading
          else d.registrationStep
        { success := true, events := [],
          state :=
            { driver := some { d with
                documents :=
                  if d.documents.contains docType then d.documents
                  else d.documents ++ [docType],
                registrationStep := newStep },
              tokenStep := some RegStep.documentsUploading } }

def requiredDocs : List String := ["driversLicense", "profilePhoto"]

def basicInfoErrorMsg : String := "Basic information incomplete (name, email required)"

def earnTypeErrorMsg : String := "Earn type and city must be set"

/-- Result of `completeFullRegistration`. -/
structure FinalizeResult where
  success : Bool
  errors : List String
  missingDocuments : List String
  issuedTokenExpiresInHours : Option Nat
  events : List RegEvent
  state : RegState
deriving DecidableEq, Repr

/-- `completeFullRegistration` (lines 885-997): re-validates all completion
prerequisites from the current field state (lines 922-952); on failure
returns the error list and missing documents and changes nothing; on success
sets `verified = true`, `registrationStep = 'completed'`, `available = false`,
issues the 7-day main session token and emits `registration_completed` and
`verification_approved`. -/
def completeFullRegistrationOp (s : RegState) : FinalizeResult :=
  match s.driver with
  | none =>
      { success := false, errors := [], missingDocuments := [],
        issuedTokenExpiresInHours := none, events := [], state := s }
  | some d =>
      let basicOk := present d.name && present d.email &&
        present d.firstName && present d.lastName
      let earnOk := present d.earnType && present d.city
      let missingDocs := requiredDocs.filter (fun k => !(d.documents.contains k))
      let errors :=
        (if basicOk then [] else [basicInfoErrorMsg]) ++
        (if earnOk then [] else [earnTypeErrorMsg]) ++
        (if missingDocs.isEmpty then [] else
          ["Missing required documents: " ++ String.intercalate ", " missingDocs])
      if errors.isEmpty then
        { success := true, errors := [], missingDocuments := [],
          issuedTokenExpiresInHours := some 168,
          events := [RegEvent.registrationCompleted, RegEvent.verificationApproved],
          state :=
            { driver := some { d with
                verified := true,
                registrationStep := some RegStep.completed,
                available := false },
              tokenStep := s.tokenStep } }
      else
        { success := false, errors := errors, missingDocuments := missingDocs,
          issuedTokenExpiresInHours := none, events := [], state := s }

/-- The stored registration step of a state. -/
def storedStep (s : RegState) : Option RegStep :=
  match s.driver with
  | some d => d.registrationStep
  | none => none

/-- The effective registration step of a state: the reconciliation of the
stored step and the token claim via `getCurrentRegistrationStep`. -/
def effectiveStep (s : RegState) : RegStep :=
  getCurrentRegistrationStep (storedStep s) s.tokenStep

/-! ## C3: the registration step is not monotone -/

theorem setupEarnType_state (et c rc : String) (s : RegState) (d : RegDriver)
    (hdrv : s.driver = some d) (het : validEarnTypes.contains et = true) (hc : c ≠ "") :
    (setupEarnTypeOp et c rc s).state =
      { driver := some { d with
          earnType := some et,
          city := some c,
          referralCode := if rc = "" then none else some rc,
          registrationStep := some RegStep.earnTypeCompleted },
        tokenStep := some RegStep.earnTypeCompleted } := by
  have hetne : et ≠ "" := by
    intro h
    rw [h] at het
    exact absurd het (by decide)
  rw [setupEarnTypeOp, if_neg (by push_neg; exact ⟨hetne, hc⟩),
    if_neg (by intro h; rw [het] at h; cases h), hdrv]

theorem completeRegistration_effectiveStep (fn ln em pw : String) (s : RegState)
    (d : RegDriver) (hdrv : s.driver = some d)
    (hfn : fn ≠ "") (hln : ln ≠ "") (hem : em ≠ "") (hpw : pw ≠ "")
    (hemail : emailRegexMatches em = true) (hlen : ¬ pw.length < 6) :
    effectiveStep ((completeRegistrationOp fn ln em pw s).state) =
      RegStep.basicInfoCompleted := by
  rw [completeRegistrationOp, if_neg (by push_neg; exact ⟨hfn, hln, hem, hpw⟩),
    if_neg (by intro h; rw [hemail] at h; cases h), if_neg hlen, hdrv]
  rfl

/-- C3 (amended): `getCurrentRegistrationStep` does return the more advanced
of the stored step and the token's step in the fixed order, but
`completeRegistration` and `setupEarnType` set the stored step and the issued
token's step unconditionally to their own value, so the effective step is not
monotone: calling SetupEarnType and then CompleteBasicInfo (valid inputs,
driver record present) leaves the effective step at `basic_info_completed`,
strictly below the `earn_type_completed` it had in between. -/
theorem registrationStep_not_monotone
    (s : RegState) (d : RegDriver) (hdrv : s.driver = some d)
    (et c rc fn ln em pw : String)
    (het : validEarnTypes.contains et = true) (hc : c ≠ "")
    (hfn : fn ≠ "") (hln : ln ≠ "") (hem : em ≠ "") (hpw : pw ≠ "")
    (hemail : emailRegexMatches em = true) (hlen : ¬ pw.length < 6) :
    (∀ a b : Option RegStep,
      stepIndexOf a ≤ stepIndexOf (some (getCurrentRegistrationStep a b)) ∧
      stepIndexOf b ≤ stepIndexOf (some (getCurrentRegistrationStep a b))) ∧
    effectiveStep ((setupEarnTypeOp et c rc s).state) = RegStep.earnTypeCompleted ∧
    effectiveStep ((completeRegistrationOp fn ln em pw
        ((setupEarnTypeOp et c rc s).state)).state) = RegStep.basicInfoCompleted ∧
    stepIndex RegStep.basicInfoCompleted < stepIndex RegStep.earnTypeCompleted := by
  have hs1 := setupEarnType_state et c rc s d hdrv het hc
  refine ⟨by decide, ?_, ?_, by decide⟩
  · rw [hs1]
    rfl
  · exact completeRegistration_effectiveStep fn ln em pw
      ((setupEarnTypeOp et c rc s).state)
      { d with
        earnType := some et,
        city := some c,
        referralCode := if rc = "" then none else some rc,
        registrationStep := some RegStep.earnTypeCompleted }
      (by rw [hs1]) hfn hln hem hpw hemail hlen

/-- The driver record created by `completeRegistration` for Ada. -/
def regDriverAda : RegDriver :=
  { name := some "Ada Lovelace", firstName := some "Ada", lastName := some "Lovelace",
    email := some "ada@example.com", earnType := none, city := none, referralCode := none,
    documents := [], registrationStep := some RegStep.basicInfoCompleted,
    verified := false, available := false }

/-- The state after Ada's basic-info step. -/
def regStateAda : RegState :=
  { driver := some regDriverAda, tokenStep := some RegStep.basicInfoCompleted }

/-- C3 counterexample: from the reachable state after CompleteBasicInfo,
calling SetupEarnType (effective step `earn_type_completed`) and then
CompleteBasicInfo again drops the effective step back to
`basic_info_completed`: the effective step decreases along this operation
sequence, refuting monotonicity. -/
theorem registrationStep_regression :
    (completeRegistrationOp "Ada" "Lovelace" "ada@example.com" "hunter42"
      { driver := none, tokenStep := some RegStep.verifiedPhone }).state = regStateAda ∧
    effectiveStep ((setupEarnTypeOp "car" "Lagos" "" regStateAda).state) =
      RegStep.earnTypeCompleted ∧
    effectiveStep ((completeRegistrationOp "Ada" "Lovelace" "ada@example.com" "hunter42"
        ((setupEarnTypeOp "car" "Lagos" "" regStateAda).state)).state) =
      RegStep.basicInfoCompleted ∧
    stepIndex RegStep.basicInfoCompleted < stepIndex RegStep.earnTypeCompleted := by
  decide

theorem registrationStep_not_monotone_witness :
    (regStateAda.driver = some regDriverAda ∧
      validEarnTypes.contains "car" = true ∧ "Lagos" ≠ "" ∧ "Ada" ≠ "" ∧
      "Lovelace" ≠ "" ∧ "ada@example.com" ≠ "" ∧ "hunter42" ≠ "" ∧
      emailRegexMatches "ada@example.com" = true ∧ ¬ ("hunter42".length < 6)) ∧
    ((∀ a b : Option RegStep,
        stepIndexOf a ≤ stepIndexOf (some (getCurrentRegistrationStep a b)) ∧
        stepIndexOf b ≤ stepIndexOf (some (getCurrentRegistrationStep a b))) ∧
      effectiveStep ((setupEarnTypeOp "car" "Lagos" "" regStateAda).state) =
        RegStep.earnTypeCompleted ∧
      effectiveStep ((completeRegistrationOp "Ada" "Lovelace" "ada@example.com" "hunter42"
          ((setupEarnTypeOp "car" "Lagos" "" regStateAda).state)).state) =
        RegStep.basicInfoCompleted ∧
      stepIndex RegStep.basicInfoCompleted < stepIndex RegStep.earnTypeCompleted) :=
  ⟨⟨rfl, by decide, by decide, by decide, by decide, by decide, by decide, by decide,
      by decide⟩,
    registrationStep_not_monotone regStateAda regDriverAda rfl "car" "Lagos" "" "Ada"
      "Lovelace" "ada@example.com" "hunter42" (by decide) (by decide) (by decide)
      (by decide) (by decide) (by decide) (by decide) (by decide)⟩

/-! ## C4: the finalize gate -/

/-- The success condition exactly as claim C4 states it (written from the
spec's words, for comparison with the source's gate): name, email, earnType
and city set, both required document keys present. -/
def finalizeClaimedGate (d : RegDriver) : Bool :=
  present d.name && present d.email && present d.earnType && present d.city &&
    d.documents.contains "driversLicense" && d.documents.contains "profilePhoto"

/-- A driver record whose `name` and `email` are set but whose name parts are
not. -/
def regDriverNoParts : RegDriver :=
  { name := some "Ada Lovelace", firstName := none, lastName := none,
    email := some "ada@example.com", earnType := some "car", city := some "Lagos",
    referralCode := none, documents := ["driversLicense", "profilePhoto"],
    registrationStep := some RegStep.documentsUploading, verified := false,
    available := true }

/-- C4 counterexample: the gate as the claim states it holds for this record,
yet `completeFullRegistration` fails (the source, lines 926-928, also
requires `firstName` and `lastName`) and leaves the state unchanged. -/
theorem finalize_gate_counterexample :
    finalizeClaimedGate regDriverNoParts = true ∧
    (completeFullRegistrationOp
        { driver := some regDriverNoParts,
          tokenStep := some RegStep.documentsUploading }).success = false ∧
    (completeFullRegistrationOp
        { driver := some regDriverNoParts,
          tokenStep := some RegStep.documentsUploading }).state =
      { driver := some regDriverNoParts, tokenStep := some RegStep.documentsUploading } := by
  decide

/-- C4 (amended): `completeFullRegistration` succeeds iff name, firstName,
lastName, email, earnType and city are all set (non-empty) and the documents
map contains both `driversLicense` and `profilePhoto`; on success it sets
`verified = true` and `registrationStep = 'completed'`, issues the 7-day
session token and emits the completion events; on failure it reports a
non-empty error list and changes no driver fields. -/
theorem finalize_gate (s : RegState) (d : RegDriver) (hdrv : s.driver = some d) :
    ((completeFullRegistrationOp s).success = true ↔
      (present d.name = true ∧ present d.email = true ∧ present d.firstName = true ∧
        present d.lastName = true ∧ present d.earnType = true ∧ present d.city = true ∧
        d.documents.contains "driversLicense" = true ∧
        d.documents.contains "profilePhoto" = true)) ∧
    ((completeFullRegistrationOp s).success = true →
      (completeFullRegistrationOp s).state.driver =
        some { d with
          verified := true,
          registrationStep := some RegStep.completed,
          available := false } ∧
      (completeFullRegistrationOp s).issuedTokenExpiresInHours = some 168 ∧
      (completeFullRegistrationOp s).events =
        [RegEvent.registrationCompleted, RegEvent.verificationApproved]) ∧
    ((completeFullRegistrationOp s).success = false →
      (completeFullRegistrationOp s).state = s ∧
      (completeFullRegistrationOp s).errors ≠ []) := by
  cases h1 : present d.name <;> cases h2 : present d.email <;>
    cases h3 : present d.firstName <;> cases h4 : present d.lastName <;>
    cases h5 : present d.earnType <;> cases h6 : present d.city <;>
    by_cases h7 : "driversLicense" ∈ d.documents <;>
    by_cases h8 : "profilePhoto" ∈ d.documents <;>
    simp [completeFullRegistrationOp, hdrv, requiredDocs, List.filter_cons,
      basicInfoErrorMsg, earnTypeErrorMsg, h1, h2, h3, h4, h5, h6, h7, h8]

/-- A driver record satisfying every completion prerequisite. -/
def regDriverComplete : RegDriver :=
  { name := some "Ada Lovelace", firstName := some "Ada", lastName := some "Lovelace",
    email := some "ada@example.com", earnType := some "car", city := some "Lagos",
    referralCode := none, documents := ["driversLicense", "profilePhoto"],
    registrationStep := some RegStep.documentsUploading, verified := false,
    available := true }

def regStateComplete : RegState :=
  { driver := some regDriverComplete, tokenStep := some RegStep.documentsUploading }

theorem finalize_gate_witness :
    regStateComplete.driver = some regDriverComplete ∧
    (((completeFullRegistrationOp regStateComplete).success = true ↔
        (present regDriverComplete.name = true ∧ present regDriverComplete.email = true ∧
          present regDriverComplete.firstName = true ∧
          present regDriverComplete.lastName = true ∧
          present regDriverComplete.earnType = true ∧
          present regDriverComplete.city = true ∧
          regDriverComplete.documents.contains "driversLicense" = true ∧
          regDriverComplete.documents.contains "profilePhoto" = true)) ∧
      ((completeFullRegistrationOp regStateComplete).success = true →
        (completeFullRegistrationOp regStateComplete).state.driver =
          some { regDriverComplete with
            verified := true,
            registrationStep := some RegStep.completed,
            available := false } ∧
        (completeFullRegistrationOp regStateComplete).issuedTokenExpiresInHours =
          some 168 ∧
        (completeFullRegistrationOp regStateComplete).events =
          [RegEvent.registrationCompleted, RegEvent.verificationApproved]) ∧
      ((completeFullRegistrationOp regStateComplete).success = false →
        (completeFullRegistrationOp regStateComplete).state = regStateComplete ∧
        (completeFullRegistrationOp regStateComplete).errors ≠ [])) :=
  ⟨rfl, finalize_gate regStateComplete regDriverComplete rfl⟩

/-! ## C8: no document_uploaded event on the success path -/

/-- C8 (evaluation at the failing input): a valid `uploadDocument` call
(valid type, driver record present, blob stored) succeeds yet emits no
`document_uploaded` event: the handler's only `notifyDocumentUploaded` call
sits inside its `catch` error handler (driverRegistrationController.js lines
866-870, where `driver` and `documentType` are not even in scope), not on the
success path (lines 831-849). -/
theorem uploadDocument_success_emits_nothing :
    (uploadDocumentOp "driversLicense" regStateAda).success = true ∧
    (uploadDocumentOp "driversLicense" regStateAda).events = [] ∧
    RegEvent.documentUploaded "driversLicense" ∉
      (uploadDocumentOp "driversLicense" regStateAda).events := by
  decide

/-! ## One-time codes: registerPhone and resendOtp -/

/-- An OTP document (src Otp model: phone, code, type, expiresAt). -/
structure OtpRecord where
  phone : String
  code : String
  otype : String
  expiresAt : Nat
deriving DecidableEq, Repr

/-- `generateOTP` (driverRegistrationController.js line 186): the constant
string "123456"; the function takes no input at all. -/
def generateOTP : String := "123456"

/-- The OTP record stored by both endpoints: the generated code, type
`driver_registration`, expiring five minutes (in ms) from now. -/
def freshOtp (phone : String) (now : Nat) : OtpRecord :=
  { phone := phone, code := generateOTP, otype := "driver_registration",
    expiresAt := now + 5 * 60 * 1000 }

/-- Outcome of the phone/OTP endpoints: HTTP status, the `otp` field included
in the JSON response body (the endpoints are unauthenticated), and the OTP
collection after the call. -/
structure PhoneApiResult where
  status : Nat
  otpInBody : Option String
  otps : List OtpRecord
deriving DecidableEq, Repr

/-- `registerPhone` (lines 256-301): 400 when the phone is falsy, 409 when a
driver already owns the phone; otherwise delete every OTP for the phone
(`Otp.deleteMany(\x7bphone\x7d)`, any type), store a fresh code and return 200 with
the code included in the response body. -/
def registerPhone (phone : String) (registeredPhones : List String)
    (otps : List OtpRecord) (now : Nat) : PhoneApiResult :=
  if phone = "" then
    { status := 400, otpInBody := none, otps := otps }
  else if registeredPhones.contains phone then
    { status := 409, otpInBody := none, otps := otps }
  else
    { status := 200, otpInBody := some generateOTP,
      otps := otps.filter (fun o => !(decide (o.phone = phone))) ++ [freshOtp phone now] }

/-- `resendOtp` (lines 1192-1228): 400 when the phone is falsy; otherwise —
with no registered-phone check at all — delete the phone's
`driver_registration` codes, store a fresh one and return 200 with the code
in the body. -/
def resendOtp (phone : String) (otps : List OtpRecord) (now : Nat) : PhoneApiResult :=
  if phone = "" then
    { status := 400, otpInBody := none, otps := otps }
  else
    { status := 200, otpInBody := some generateOTP,
      otps := otps.filter
          (fun o => !(decide (o.phone = phone) && decide (o.otype = "driver_registration"))) ++
        [freshOtp phone now] }

/-! ## C9: the code is the constant "123456" and is disclosed -/

/-- C9: for every phone, every collection state and every time, the code
issued by `registerPhone` and by `resendOtp` is the constant "123456"
(`generateOTP` takes no input, so the code depends on no random or secret
input), and every successful (200) response of these unauthenticated
endpoints includes that code in its body while storing it as the valid
verification code. -/
theorem otp_constant_and_disclosed :
    generateOTP = "123456" ∧
    (∀ phone regs otps now, (registerPhone phone regs otps now).status = 200 →
      (registerPhone phone regs otps now).otpInBody = some "123456" ∧
      freshOtp phone now ∈ (registerPhone phone regs otps now).otps ∧
      (freshOtp phone now).code = "123456") ∧
    (∀ phone otps now, (resendOtp phone otps now).status = 200 →
      (resendOtp phone otps now).otpInBody = some "123456" ∧
      freshOtp phone now ∈ (resendOtp phone otps now).otps ∧
      (freshOtp phone now).code = "123456") := by
  refine ⟨rfl, ?_, ?_⟩
  · intro phone regs otps now h
    by_cases h1 : phone = ""
    · simp [registerPhone, h1] at h
    · by_cases h2 : phone ∈ regs
      · simp [registerPhone, h1, h2] at h
      · refine ⟨?_, ?_, rfl⟩
        · simp [registerPhone, h1, h2, generateOTP]
        · simp [registerPhone, h1, h2]
  · intro phone otps now h
    by_cases h1 : phone = ""
    · simp [resendOtp, h1] at h
    · refine ⟨?_, ?_, rfl⟩
      · simp [resendOtp, h1, generateOTP]
      · simp [resendOtp, h1]

theorem otp_constant_and_disclosed_witness :
    (registerPhone "0803111" [] [] 0).status = 200 ∧
    (registerPhone "0803111" [] [] 0).otpInBody = some "123456" ∧
    freshOtp "0803111" 0 ∈ (registerPhone "0803111" [] [] 0).otps ∧
    (resendOtp "0803111" [] 0).otpInBody = some "123456" :=
  ⟨by decide,
    (otp_constant_and_disclosed.2.1 "0803111" [] [] 0 (by decide)).1,
    (otp_constant_and_disclosed.2.1 "0803111" [] [] 0 (by decide)).2.1,
    (otp_constant_and_disclosed.2.2 "0803111" [] 0 (by decide)).1⟩

/-! ## C10: resend has no duplicate-phone guard, initiate does -/

/-- C10: `resendOtp` never fails with Conflict; for every non-empty phone —
registered or not — it succeeds, and afterwards the only
`driver_registration` code stored for that phone is the fresh one (prior
codes deleted); `registerPhone`, by contrast, fails with 409 Conflict for a
registered phone and changes nothing. -/
theorem resendOtp_no_conflict :
    (∀ phone otps now, (resendOtp phone otps now).status ≠ 409) ∧
    (∀ phone otps now, phone ≠ "" →
      (resendOtp phone otps now).status = 200 ∧
      freshOtp phone now ∈ (resendOtp phone otps now).otps ∧
      ∀ o ∈ (resendOtp phone otps now).otps,
        o.phone = phone → o.otype = "driver_registration" → o = freshOtp phone now) ∧
    (∀ phone regs otps now, phone ≠ "" → regs.contains phone = true →
      registerPhone phone regs otps now =
        { status := 409, otpInBody := none, otps := otps }) := by
  refine ⟨?_, ?_, ?_⟩
  · intro phone otps now
    by_cases h1 : phone = "" <;> simp [resendOtp, h1]
  · intro phone otps now h1
    refine ⟨by simp [resendOtp, h1], by simp [resendOtp, h1], ?_⟩
    intro o ho hph hty
    have ho' : o ∈ otps.filter
        (fun o => !(decide (o.phone = phone) && decide (o.otype = "driver_registration"))) ++
        [freshOtp phone now] := by
      simpa [resendOtp, h1] using ho
    rcases List.mem_append.mp ho' with hmem | hmem
    · have hpred := (List.mem_filter.mp hmem).2
      rw [hph, hty] at hpred
      simp at hpred
    · simpa using hmem
  · intro phone regs otps now h1 h2
    have h2' : phone ∈ regs := by simpa using h2
    simp [registerPhone, h1, h2']

theorem resendOtp_no_conflict_witness :
    ("0803111" ≠ "" ∧ (["0803111"] : List String).contains "0803111" = true) ∧
    ((resendOtp "0803111" [] 5).status = 200 ∧
      freshOtp "0803111" 5 ∈ (resendOtp "0803111" [] 5).otps ∧
      ∀ o ∈ (resendOtp "0803111" [] 5).otps,
        o.phone = "0803111" → o.otype = "driver_registration" → o = freshOtp "0803111" 5) ∧
    registerPhone "0803111" ["0803111"] [] 5 =
      { status := 409, otpInBody := none, otps := [] } :=
  ⟨⟨by decide, by decide⟩,
    resendOtp_no_conflict.2.1 "0803111" [] 5 (by decide),
    resendOtp_no_conflict.2.2 "0803111" ["0803111"] [] 5 (by decide) (by decide)⟩

end Aerrand
